import Mathlib

/-!
Lighthouse Papyrus Extender, `Papyrus::ObjectReference`.

A shallow embedding of `include/Papyrus/Functions/ObjectReference.h`.

* Engine objects (`RE::TESObjectREFR`, `RE::Actor`, `RE::BGSKeyword`, `RE::TESForm`) are
  identified by numbers; a C++ pointer that may be null is an `Option`.
* The engine state the native functions read and write is the record `Engine`; its fields are
  the engine calls made by the source (`HasKeyword`, `GetPosition`, `IsDead`, ...).
* `float` values are exact rationals; `std::numeric_limits<float>::max()` is the rational
  `FLT_MAX`.
* The VM error channel `IVM::PostError` appends to a log.
* Every native function takes the state `World` (VM log and engine) and returns its value
  together with the state after the call.
-/

namespace Papyrus.ObjectReference

/-! Data model -/

/-- Identity of an `RE::TESObjectREFR` object. -/
abbrev TESObjectREFR := Nat

/-- Identity of an `RE::Actor` (a specialisation of `RE::TESObjectREFR`). -/
abbrev Actor := TESObjectREFR

/-- Identity of an `RE::BGSKeyword`. -/
abbrev BGSKeyword := Nat

/-- Identity of an `RE::TESForm`. -/
abbrev TESForm := Nat

/-- Identity of a `DoorTeleportData` block, the target of `ExtraTeleport::teleportData`. -/
abbrev DoorTeleportData := Nat

/-- Identity of a legendary object mod. -/
abbrev LegendaryMod := Nat

/-- Stack identifier handed to every native function by the VM. -/
abbrev VMStackID := Nat

/-- Severity levels of the VM error channel. -/
inductive Severity where
  | kInfo
  | kWarning
  | kError
  | kFatal
  deriving DecidableEq, Repr

/-- One call of `IVM::PostError`. -/
structure PostedError where
  message : String
  stackID : VMStackID
  severity : Severity
  deriving DecidableEq, Repr

/-- The VM, as far as the source uses it: the log of posted errors, oldest first. -/
abbrev IVM := List PostedError

/-- The call `a_vm.PostError(message, stackID, severity)`. -/
def IVM.PostError (a_vm : IVM) (message : String) (a_stackID : VMStackID)
    (severity : Severity) : IVM :=
  a_vm ++ [⟨message, a_stackID, severity⟩]

/-- A position `RE::NiPoint3`. -/
structure NiPoint3 where
  x : ℚ
  y : ℚ
  z : ℚ
  deriving DecidableEq

/-- The fields of `RE::BGSAnimationSystemUtils::ActiveSyncInfo` read by the source. -/
structure ActiveSyncInfo where
  totalAnimTime : ℚ
  currentAnimTime : ℚ
  deriving DecidableEq

/-- The head stack of an inventory entry (`currentItem.stackData.get()`), with the results of
the calls the source makes on it and on its `extra` list. -/
structure Stack where
  IsEquipped : Bool
  IsFavorite : Bool
  GetLegendaryMod : Option LegendaryMod
  GetCount : Nat
  deriving DecidableEq, Repr

/-- An entry `RE::BGSInventoryItem` of `inventoryList->data`. -/
structure BGSInventoryItem where
  object : TESForm
  stackData : Stack
  deriving DecidableEq, Repr

/-- The engine state read and written by the native functions. -/
structure Engine where
  /-- The call `ref->HasKeyword(kw)`. -/
  HasKeyword : TESObjectREFR → BGSKeyword → Bool
  /-- The call `BGSAnimationSystemUtils::IsActiveGraphInTransition(ref)`. -/
  IsActiveGraphInTransition : TESObjectREFR → Bool
  /-- The call `BGSAnimationSystemUtils::GetActiveSyncInfo(ref, syncInfo)`: `none` when the call
  returns false, the filled structure otherwise. -/
  GetActiveSyncInfo : TESObjectREFR → Option ActiveSyncInfo
  /-- The call `ref->GetPosition()`. -/
  GetPosition : TESObjectREFR → NiPoint3
  /-- The call `p.GetDistance(q)`. -/
  GetDistance : NiPoint3 → NiPoint3 → ℚ
  /-- The singleton `RE::ProcessLists::GetSingleton()`: `none` when it is null, otherwise its
  `highActorHandles`, each handle resolved to an actor or to null. -/
  processLists : Option (List (Option Actor))
  /-- The singleton `RE::PlayerCharacter::GetSingleton()`. -/
  player : Actor
  /-- The call `actor->IsDead(true)`. -/
  IsDead : Actor → Bool
  /-- The call `ref->extraList->GetByType<RE::ExtraTeleport>()`: `none` when there is no such
  entry, otherwise the entry's `teleportData` pointer. -/
  extraTeleport : TESObjectREFR → Option (Option DoorTeleportData)
  /-- The field `teleportData->linkedDoor`, resolved to a reference or to null. -/
  linkedDoor : DoorTeleportData → Option TESObjectREFR
  /-- The field `ref->inventoryList->data`. -/
  inventory : TESObjectREFR → List BGSInventoryItem
  /-- The call `ref->extraList->GetByType<RE::ExtraInstanceData>()` followed by
  `GetKeywordData()`: outer `none` when there is no instance data, inner `none` when the
  keyword data is null, otherwise the keywords by index. -/
  instanceKeywords : TESObjectREFR → Option (Option (List BGSKeyword))
  /-- The call `ref->GetWeightInContainer()`. -/
  GetWeightInContainer : TESObjectREFR → ℚ
  /-- The call `ref->IsInWater()`. -/
  IsInWater : TESObjectREFR → Bool
  /-- The health override stored in `ref->extraList`, if any. -/
  healthPercent : TESObjectREFR → Option ℚ

/-- Modelled from the spec: the engine call `extraList->SetHealthPercent(value)`, which is not
part of the source file; it "writes the override into the reference's extra-data list", where a
subsequent read of the override finds it. -/
def Engine.SetHealthPercent (e : Engine) (a_ref : TESObjectREFR) (a_healthPerc : ℚ) : Engine :=
  { e with healthPercent := fun r => if r = a_ref then some a_healthPerc else e.healthPercent r }

/-- The assignment `teleportData->linkedDoor = a_door->GetHandle()`. -/
def Engine.setLinkedDoor (e : Engine) (teleportData : DoorTeleportData)
    (a_door : TESObjectREFR) : Engine :=
  { e with linkedDoor := fun t => if t = teleportData then some a_door else e.linkedDoor t }

/-- The state a native function runs in: the VM's error log and the engine. -/
structure World where
  vm : IVM
  engine : Engine

/-- The statement `a_vm.PostError(message, a_stackID, Severity::kError)`. -/
def World.PostError (w : World) (message : String) (a_stackID : VMStackID) : World :=
  { w with vm := w.vm.PostError message a_stackID Severity.kError }

/-- The value `std::numeric_limits<float>::max()`, i.e. `(2 - 2^(-23)) * 2^127`. -/
def FLT_MAX : ℚ := 340282346638528859811704183484516925440

/-! FilterRefArrayByKeywords (source lines 5-43) -/

/-- The loop over `a_whiteList.value()` (lines 21-26): the first keyword the reference does not
have clears `shouldAdd` and leaves the loop. -/
def whiteListLoop (e : Engine) (currentRef : TESObjectREFR) :
    List BGSKeyword → Bool → Bool
  | [], shouldAdd => shouldAdd
  | requiredKW :: rest, shouldAdd =>
    if !e.HasKeyword currentRef requiredKW then false
    else whiteListLoop e currentRef rest shouldAdd

/-- The loop over `a_blackList.value()` (lines 30-35): the first keyword the reference has
clears `shouldAdd` and leaves the loop. -/
def blackListLoop (e : Engine) (currentRef : TESObjectREFR) :
    List BGSKeyword → Bool → Bool
  | [], shouldAdd => shouldAdd
  | bannedKW :: rest, shouldAdd =>
    if e.HasKeyword currentRef bannedKW then false
    else blackListLoop e currentRef rest shouldAdd

/-- The body of the loop over `a_refArray` (lines 20-40) for one reference: the new value of
`shouldAdd`. The flag is declared before the loop (line 12) and is not reset here. -/
def refStep (e : Engine) (a_whiteList a_blackList : Option (List BGSKeyword))
    (currentRef : TESObjectREFR) (shouldAdd : Bool) : Bool :=
  let afterWhite :=
    match a_whiteList with
    | some whiteList => whiteListLoop e currentRef whiteList shouldAdd
    | none => shouldAdd
  match a_blackList with
  | some blackList => blackListLoop e currentRef blackList afterWhite
  | none => afterWhite

/-- The loop over `a_refArray` (lines 19-41), carrying `shouldAdd` and `result`. -/
def refLoop (e : Engine) (a_whiteList a_blackList : Option (List BGSKeyword)) :
    List TESObjectREFR → Bool → List TESObjectREFR → List TESObjectREFR
  | [], _, result => result
  | currentRef :: rest, shouldAdd, result =>
    let shouldAdd := refStep e a_whiteList a_blackList currentRef shouldAdd
    refLoop e a_whiteList a_blackList rest shouldAdd
      (if shouldAdd then result ++ [currentRef] else result)

/-- The native function `FilterRefArrayByKeywords`. -/
def FilterRefArrayByKeywords (w : World) (a_stackID : VMStackID)
    (a_refArray : List TESObjectREFR)
    (a_whiteList a_blackList : Option (List BGSKeyword)) : List TESObjectREFR × World :=
  if a_refArray.isEmpty then
    ([], w.PostError "Ref array is empty" a_stackID)
  else
    (refLoop w.engine a_whiteList a_blackList a_refArray true [], w)

/-! GetAnimationLength (lines 45-61) and GetAnimationTime (lines 63-77) -/

/-- The native function `GetAnimationLength`. -/
def GetAnimationLength (w : World) (a_stackID : VMStackID)
    (a_ref : Option TESObjectREFR) : ℚ × World :=
  match a_ref with
  | none => (0, w.PostError "Ref is None" a_stackID)
  | some ref =>
    if w.engine.IsActiveGraphInTransition ref then (0, w)
    else
      match w.engine.GetActiveSyncInfo ref with
      | none => (0, w)
      | some syncInfo =>
        if syncInfo.totalAnimTime > 0 then (syncInfo.totalAnimTime, w) else (0, w)

/-- The native function `GetAnimationTime`. -/
def GetAnimationTime (w : World) (a_stackID : VMStackID)
    (a_ref : Option TESObjectREFR) : ℚ × World :=
  match a_ref with
  | none => (0, w.PostError "Ref is None" a_stackID)
  | some ref =>
    if w.engine.IsActiveGraphInTransition ref then (0, w)
    else
      match w.engine.GetActiveSyncInfo ref with
      | none => (0, w)
      | some syncInfo =>
        if syncInfo.currentAnimTime > 0 then (syncInfo.currentAnimTime, w) else (0, w)

/-! GetClosestActorFromRef (lines 79-128) -/

/-- The body of the loop over `highActorHandles` (lines 101-116) for one handle, on the pair
`(closestRef, smallestDistance)`. -/
def actorStep (e : Engine) (originPos : NiPoint3) (a_includeDead : Bool)
    (st : Option Actor × ℚ) (actorHandle : Option Actor) : Option Actor × ℚ :=
  match actorHandle with
  | none => st
  | some currentActor =>
    if !a_includeDead && e.IsDead currentActor then st
    else
      let currentDistance := e.GetDistance originPos (e.GetPosition currentActor)
      if currentDistance < st.2 then (some currentActor, currentDistance) else st

/-- The loop over `highActorHandles` (lines 100-117). -/
def actorLoop (e : Engine) (originPos : NiPoint3) (a_includeDead : Bool)
    (handles : List (Option Actor)) (st : Option Actor × ℚ) : Option Actor × ℚ :=
  handles.foldl (actorStep e originPos a_includeDead) st

/-- The native function `GetClosestActorFromRef`. -/
def GetClosestActorFromRef (w : World) (a_stackID : VMStackID)
    (a_ref : Option TESObjectREFR) (a_ignorePlayer a_includeDead : Bool) :
    Option Actor × World :=
  match a_ref with
  | none => (none, w.PostError "Ref is None" a_stackID)
  | some ref =>
    let originPos := w.engine.GetPosition ref
    match w.engine.processLists with
    | none => (none, w.PostError "Unable to obtain list of Actors" a_stackID)
    | some highActorHandles =>
      let st := actorLoop w.engine originPos a_includeDead highActorHandles (none, FLT_MAX)
      if !a_ignorePlayer then
        let player := w.engine.player
        if w.engine.GetDistance originPos (w.engine.GetPosition player) < st.2 then
          (some player, w)
        else (st.1, w)
      else (st.1, w)

/-! GetDoorDestination (lines 130-144) and SetDoorDestination (lines 286-307) -/

/-- The expression `xTeleport ? xTeleport->teleportData : nullptr` (lines 139 and 301). -/
def teleportDataOf (e : Engine) (a_ref : TESObjectREFR) : Option DoorTeleportData :=
  match e.extraTeleport a_ref with
  | some teleportData => teleportData
  | none => none

/-- The native function `GetDoorDestination`. -/
def GetDoorDestination (w : World) (a_stackID : VMStackID)
    (a_ref : Option TESObjectREFR) : Option TESObjectREFR × World :=
  match a_ref with
  | none => (none, w.PostError "Ref is None" a_stackID)
  | some ref =>
    match teleportDataOf w.engine ref with
    | some teleportData => (w.engine.linkedDoor teleportData, w)
    | none => (none, w)

/-- The native function `SetDoorDestination`. -/
def SetDoorDestination (w : World) (a_stackID : VMStackID)
    (a_ref a_door : Option TESObjectREFR) : Bool × World :=
  match a_ref with
  | none => (false, w.PostError "Ref is None" a_stackID)
  | some ref =>
    match a_door with
    | none => (false, w.PostError "Destination Ref is None" a_stackID)
    | some door =>
      match teleportDataOf w.engine ref with
      | some teleportData =>
        (true, { w with engine := w.engine.setLinkedDoor teleportData door })
      | none => (false, w)

/-! GetInventoryItemsAsArray (lines 146-235) -/

/-- The loop of lines 164-170: whether some element of `a_filterList` is true. -/
def shouldFilterLoop : List Bool → Bool
  | [] => false
  | flag :: rest => if flag then true else shouldFilterLoop rest

/-- One of the four criterion blocks (lines 176-188, 191-199, 202-210, 213-221): `guard` is
the condition of the outer `if`, `holds` the condition of the inner one. The value is the
new `shouldAdd`, or `none` when the block executes `continue`. -/
def criterionBlock (guard holds a_matchAll shouldAdd : Bool) : Option Bool :=
  if guard then
    if holds then some true
    else if a_matchAll then none else some shouldAdd
  else some shouldAdd

/-- The body of the filtering loop (lines 174-225) for one item: whether its form is pushed. -/
def itemStep (a_filterList : List Bool) (a_matchAll : Bool) (currentItem : BGSInventoryItem) :
    Bool :=
  let shouldAdd := false
  match criterionBlock (decide (a_filterList.length > 1) && a_filterList.getD 0 false)
      currentItem.stackData.IsEquipped a_matchAll shouldAdd with
  | none => false
  | some shouldAdd =>
  match criterionBlock (decide (a_filterList.length > 2) && a_filterList.getD 1 false)
      currentItem.stackData.IsFavorite a_matchAll shouldAdd with
  | none => false
  | some shouldAdd =>
  match criterionBlock (decide (a_filterList.length > 3) && a_filterList.getD 2 false)
      (currentItem.stackData.GetLegendaryMod != none) a_matchAll shouldAdd with
  | none => false
  | some shouldAdd =>
  match criterionBlock (decide (a_filterList.length > 4) && a_filterList.getD 3 false)
      (decide (currentItem.stackData.GetCount > 1)) a_matchAll shouldAdd with
  | none => false
  | some shouldAdd => shouldAdd

/-- The filtering loop over `refInventory` (lines 173-226), carrying `result`. -/
def filterLoop (a_filterList : List Bool) (a_matchAll : Bool) :
    List BGSInventoryItem → List TESForm → List TESForm
  | [], result => result
  | currentItem :: rest, result =>
    filterLoop a_filterList a_matchAll rest
      (if itemStep a_filterList a_matchAll currentItem then result ++ [currentItem.object]
       else result)

/-- The unfiltered loop over `refInventory` (lines 231-233), carrying `result`. -/
def allItemsLoop : List BGSInventoryItem → List TESForm → List TESForm
  | [], result => result
  | currentItem :: rest, result => allItemsLoop rest (result ++ [currentItem.object])

/-- The native function `GetInventoryItemsAsArray`. -/
def GetInventoryItemsAsArray (w : World) (a_stackID : VMStackID)
    (a_ref : Option TESObjectREFR) (a_filterList : List Bool) (a_matchAll : Bool) :
    List TESForm × World :=
  match a_ref with
  | none => ([], w.PostError "Ref is None" a_stackID)
  | some ref =>
    let refInventory := w.engine.inventory ref
    if shouldFilterLoop a_filterList = true then
      (filterLoop a_filterList a_matchAll refInventory [], w)
    else
      (allItemsLoop refInventory [], w)

/-! GetKeywordsRef (lines 237-262), GetWeightInContainer (264-273), IsInWater (275-284) -/

/-- The loop of lines 258-260: the keywords at the indices `1 .. keywordAmount - 1`. -/
def keywordLoop (kwData : List BGSKeyword) : List BGSKeyword :=
  (List.range' 1 (kwData.length - 1)).filterMap (fun i => kwData.get? i)

/-- The native function `GetKeywordsRef`. -/
def GetKeywordsRef (w : World) (a_stackID : VMStackID)
    (a_ref : Option TESObjectREFR) : List BGSKeyword × World :=
  match a_ref with
  | none => ([], w.PostError "Ref is None" a_stackID)
  | some ref =>
    match w.engine.instanceKeywords ref with
    | none => ([], w.PostError "Ref data is None" a_stackID)
    | some none => ([], w.PostError "KW data is None" a_stackID)
    | some (some kwData) => (keywordLoop kwData, w)

/-- The native function `GetWeightInContainer`. -/
def GetWeightInContainer (w : World) (a_stackID : VMStackID)
    (a_ref : Option TESObjectREFR) : ℚ × World :=
  match a_ref with
  | none => (0, w.PostError "Ref is None" a_stackID)
  | some ref => (w.engine.GetWeightInContainer ref, w)

/-- The native function `IsInWater`. -/
def IsInWater (w : World) (a_stackID : VMStackID)
    (a_ref : Option TESObjectREFR) : Bool × World :=
  match a_ref with
  | none => (false, w.PostError "Ref is None" a_stackID)
  | some ref => (w.engine.IsInWater ref, w)

/-! SetHealthPercent (lines 309-326) -/

/-- The native function `SetHealthPercent`. -/
def SetHealthPercent (w : World) (a_stackID : VMStackID)
    (a_ref : Option TESObjectREFR) (a_healthPerc : ℚ) : Unit × World :=
  match a_ref with
  | none => ((), w.PostError "Ref is None" a_stackID)
  | some ref =>
    if a_healthPerc < 0 ∨ a_healthPerc > 1 then
      ((), w.PostError "Invalid value. Must not be less than 0 or more than 1" a_stackID)
    else
      ((), { w with engine := w.engine.SetHealthPercent ref a_healthPerc })

/-! Concrete engine states used to evaluate the functions -/

/-- An engine state with no keywords, no animation, no actors, empty inventories and no extra
data; every position is the origin and the distance of two points on the x axis is the
difference of their coordinates. -/
def blankEngine : Engine where
  HasKeyword := fun _ _ => false
  IsActiveGraphInTransition := fun _ => false
  GetActiveSyncInfo := fun _ => none
  GetPosition := fun _ => ⟨0, 0, 0⟩
  GetDistance := fun p q => |p.x - q.x|
  processLists := some []
  player := 14
  IsDead := fun _ => false
  extraTeleport := fun _ => none
  linkedDoor := fun _ => none
  inventory := fun _ => []
  instanceKeywords := fun _ => none
  GetWeightInContainer := fun _ => 0
  IsInWater := fun _ => false
  healthPercent := fun _ => none

/-- A world in which reference 2 has keyword 7, reference 3 has keywords 7 and 9, and no other
reference has a keyword. -/
def keywordWorld : World where
  vm := []
  engine :=
    { blankEngine with
      HasKeyword := fun r k => (r == 2 && k == 7) || (r == 3 && (k == 7 || k == 9)) }

/-- A world in which reference 1 carries four inventory entries: form 100 is equipped, form 101
is a favorite with count 2, form 102 is legendary, form 103 has none of the attributes. -/
def inventoryWorld : World where
  vm := []
  engine :=
    { blankEngine with
      inventory := fun r =>
        if r = 1 then
          [⟨100, ⟨true, false, none, 1⟩⟩, ⟨101, ⟨false, true, none, 2⟩⟩,
           ⟨102, ⟨false, false, some 5, 1⟩⟩, ⟨103, ⟨false, false, none, 1⟩⟩]
        else [] }

/-! Vocabulary for the claims on GetClosestActorFromRef -/

/-- The distance the source computes for an actor: from the origin reference's position to the
actor's position. -/
def originDistance (e : Engine) (a_ref : TESObjectREFR) (a : Actor) : ℚ :=
  e.GetDistance (e.GetPosition a_ref) (e.GetPosition a)

/-- An actor the scan does not skip: it is living, or dead actors are included. -/
def eligible (e : Engine) (a_includeDead : Bool) (a : Actor) : Bool :=
  a_includeDead || !e.IsDead a

/-- An eligible active actor: a non-null entry of the registry that the scan does not skip. -/
def eligibleActive (e : Engine) (handles : List (Option Actor)) (a_includeDead : Bool)
    (a : Actor) : Prop :=
  some a ∈ handles ∧ eligible e a_includeDead a = true

/-- A candidate of the search: an eligible active actor, or the player when the player is not
ignored. -/
def isCandidate (e : Engine) (handles : List (Option Actor))
    (a_ignorePlayer a_includeDead : Bool) (a : Actor) : Prop :=
  eligibleActive e handles a_includeDead a ∨ (a_ignorePlayer = false ∧ a = e.player)

/-- An engine whose references lie on the x axis at the coordinates `xs`. -/
def lineEngine (xs : TESObjectREFR → ℚ) : Engine :=
  { blankEngine with GetPosition := fun r => ⟨xs r, 0, 0⟩ }

/-- Origin reference 1 at 0; active actors 12, 11, 13 at distances 10, 5, 15 (and one null
handle); the player, 14, at distance 3. -/
def actorWorld : World where
  vm := []
  engine :=
    { lineEngine (fun r =>
        if r = 11 then 5 else if r = 12 then 10 else if r = 13 then 15
        else if r = 14 then 3 else 0) with
      processLists := some [some 12, none, some 11, some 13] }

/-- Origin reference 1 at 0; active actor 10 is dead, at distance 1; active actors 12 and 11 are
living, at distances 10 and 5; the player, 14, is living, at distance 20. -/
def deadActorWorld : World where
  vm := []
  engine :=
    { lineEngine (fun r =>
        if r = 10 then 1 else if r = 11 then 5 else if r = 12 then 10
        else if r = 14 then 20 else 0) with
      processLists := some [some 10, some 12, some 11]
      IsDead := fun a => a == 10 }

/-- Origin reference 1 at 0; active actor 11 is living, at distance 5; the player, 14, is dead,
at distance 1. -/
def deadPlayerWorld : World where
  vm := []
  engine :=
    { lineEngine (fun r => if r = 11 then 5 else if r = 14 then 1 else 0) with
      processLists := some [some 11]
      IsDead := fun a => a == 14 }

/-- Origin reference 1 at 0; the only active actor, 11, is living, at distance `FLT_MAX + 2`;
the player, 14, is living, at distance `FLT_MAX + 1`. -/
def farWorld : World where
  vm := []
  engine :=
    { lineEngine (fun r =>
        if r = 11 then FLT_MAX + 2 else if r = 14 then FLT_MAX + 1 else 0) with
      processLists := some [some 11] }

/-- Origin reference 1 at 0; active actors 12 and 11 at distances 10 and 3; the player, 14, also
at distance 3. -/
def tieWorld : World where
  vm := []
  engine :=
    { lineEngine (fun r =>
        if r = 11 then 3 else if r = 12 then 10 else if r = 14 then 3 else 0) with
      processLists := some [some 12, some 11] }

/-- A world in which reference 1 carries the health override 3/4. -/
def healthWorld : World where
  vm := []
  engine := { blankEngine with healthPercent := fun r => if r = 1 then some (3 / 4) else none }

/-- The call went from `w` to `w2` by posting exactly one error, with the given text, on the
caller's stack and with severity error, and by changing nothing in the engine. -/
def postsOnly (w w2 : World) (message : String) (a_stackID : VMStackID) : Prop :=
  w2.vm = w.vm ++ [⟨message, a_stackID, Severity.kError⟩] ∧ w2.engine = w.engine

/-- A world of doors: reference 1 carries teleport data 50, linked to reference 2; reference 5
carries teleport data 51, linked to reference 6; reference 3 has an ExtraTeleport entry whose
teleport data is null; every other reference has no ExtraTeleport entry. -/
def doorWorld : World where
  vm := []
  engine :=
    { blankEngine with
      extraTeleport := fun r =>
        if r = 1 then some (some 50) else if r = 5 then some (some 51)
        else if r = 3 then some none else none
      linkedDoor := fun t => if t = 50 then some 2 else if t = 51 then some 6 else none }

/-- A world of animations: reference 1 has total time 10 and current time 4; reference 2 has
total time 0 and current time 5; reference 3 has total time 10 and current time -1; reference 4
has the times of reference 1 but its graph is in transition; every other reference has no
active sync info. -/
def animationWorld : World where
  vm := []
  engine :=
    { blankEngine with
      IsActiveGraphInTransition := fun r => r == 4
      GetActiveSyncInfo := fun r =>
        if r = 1 ∨ r = 4 then some ⟨10, 4⟩ else if r = 2 then some ⟨0, 5⟩
        else if r = 3 then some ⟨10, -1⟩ else none }

/-! Vocabulary for the claims on the two filters -/

/-- A reference passes the keyword filter: it has every allow-list keyword, when an allow-list
is supplied, and no deny-list keyword, when a deny-list is supplied. -/
def passesFilter (e : Engine) (a_whiteList a_blackList : Option (List BGSKeyword))
    (r : TESObjectREFR) : Bool :=
  (match a_whiteList with
    | some whiteList => whiteList.all (fun k => e.HasKeyword r k)
    | none => true)
  && (match a_blackList with
    | some blackList => blackList.all (fun k => !e.HasKeyword r k)
    | none => true)

/-- The four criteria of the inventory filter, by flag index: equipped, favorite, legendary,
stack count greater than one. -/
def criterionHolds (item : BGSInventoryItem) : Nat → Bool
  | 0 => item.stackData.IsEquipped
  | 1 => item.stackData.IsFavorite
  | 2 => item.stackData.GetLegendaryMod != none
  | 3 => decide (item.stackData.GetCount > 1)
  | _ => false

/-- A criterion is active: its index is one of 0..3 and the flag at that index is true. -/
def criterionActive (a_filterList : List Bool) (i : Nat) : Bool :=
  decide (i < 4) && a_filterList.getD i false

/-- The stack satisfies at least one active criterion. -/
def satisfiesSomeActive (a_filterList : List Bool) (item : BGSInventoryItem) : Bool :=
  (List.range 4).any (fun i => criterionActive a_filterList i && criterionHolds item i)

/-- The stack satisfies every active criterion. -/
def satisfiesEveryActive (a_filterList : List Bool) (item : BGSInventoryItem) : Bool :=
  (List.range 4).all (fun i => !criterionActive a_filterList i || criterionHolds item i)

/-! Lemmas on FilterRefArrayByKeywords -/

theorem blackListLoop_true (e : Engine) (r : TESObjectREFR) (bl : List BGSKeyword)
    (s : Bool) (h : blackListLoop e r bl s = true) :
    s = true ∧ ∀ k ∈ bl, e.HasKeyword r k = false := by
  induction bl with
  | nil => exact ⟨h, by simp⟩
  | cons k rest ih =>
    unfold blackListLoop at h
    by_cases hk : e.HasKeyword r k = true
    · simp [hk] at h
    · simp only [Bool.not_eq_true] at hk
      simp only [hk, Bool.false_eq_true, if_false] at h
      obtain ⟨hs, hrest⟩ := ih h
      refine ⟨hs, ?_⟩
      intro k2 hk2
      rcases List.mem_cons.mp hk2 with rfl | hmem
      · exact hk
      · exact hrest k2 hmem

theorem whiteListLoop_true (e : Engine) (r : TESObjectREFR) (wl : List BGSKeyword)
    (s : Bool) (h : whiteListLoop e r wl s = true) :
    s = true ∧ ∀ k ∈ wl, e.HasKeyword r k = true := by
  induction wl with
  | nil => exact ⟨h, by simp⟩
  | cons k rest ih =>
    unfold whiteListLoop at h
    by_cases hk : e.HasKeyword r k = true
    · simp only [hk, Bool.not_true, Bool.false_eq_true, if_false] at h
      obtain ⟨hs, hrest⟩ := ih h
      refine ⟨hs, ?_⟩
      intro k2 hk2
      rcases List.mem_cons.mp hk2 with rfl | hmem
      · exact hk
      · exact hrest k2 hmem
    · simp only [Bool.not_eq_true] at hk
      simp [hk] at h

theorem refLoop_invariant (e : Engine) (wl bl : Option (List BGSKeyword))
    (P : TESObjectREFR → Prop)
    (hP : ∀ r s, refStep e wl bl r s = true → P r)
    (refs : List TESObjectREFR) (s : Bool) (result : List TESObjectREFR)
    (hres : ∀ r ∈ result, P r) :
    ∀ r ∈ refLoop e wl bl refs s result, P r := by
  induction refs generalizing s result with
  | nil => simpa [refLoop] using hres
  | cons c rest ih =>
    unfold refLoop
    apply ih
    intro r hr
    by_cases hs : refStep e wl bl c s = true
    · simp only [hs, if_true, List.mem_append, List.mem_singleton] at hr
      rcases hr with hr | rfl
      · exact hres r hr
      · exact hP _ _ hs
    · simp only [hs, Bool.false_eq_true, if_false] at hr
      exact hres r hr

/-! Claims -/

/-- C1 (evaluation at the failing input): with allow-list `[7]` and no deny-list, the array
`[1, 2]`, whose first reference lacks keyword 7 and whose second has it, is filtered to the
empty array, so reference 2 has every allow-list keyword and is not in the result. -/
theorem C1_allow_list_drops_matching_ref :
    (FilterRefArrayByKeywords keywordWorld 0 [1, 2] (some [7]) none).1 = []
      ∧ (∀ k ∈ [7], keywordWorld.engine.HasKeyword 2 k = true)
      ∧ 2 ∉ (FilterRefArrayByKeywords keywordWorld 0 [1, 2] (some [7]) none).1
      ∧ (FilterRefArrayByKeywords keywordWorld 0 [2, 1] (some [7]) none).1 = [2] := by
  decide

/-- C2: for every reference array, optional allow-list and supplied deny-list, no reference in
the result of FilterRefArrayByKeywords has a keyword of the deny-list. -/
theorem C2_deny_list_excluded (w : World) (a_stackID : VMStackID)
    (a_refArray : List TESObjectREFR) (a_whiteList : Option (List BGSKeyword))
    (blackList : List BGSKeyword) (r : TESObjectREFR)
    (hr : r ∈ (FilterRefArrayByKeywords w a_stackID a_refArray a_whiteList (some blackList)).1)
    (k : BGSKeyword) (hk : k ∈ blackList) :
    w.engine.HasKeyword r k = false := by
  unfold FilterRefArrayByKeywords at hr
  by_cases hempty : a_refArray.isEmpty = true
  · simp [hempty] at hr
  · simp only [hempty, Bool.false_eq_true, if_false] at hr
    have key := refLoop_invariant w.engine a_whiteList (some blackList)
      (fun r => ∀ k ∈ blackList, w.engine.HasKeyword r k = false)
      (fun r s hs => (blackListLoop_true w.engine r blackList _ hs).2)
      a_refArray true [] (by simp) r hr
    exact key k hk

/-- C2 witness: with deny-list `[9]` the array `[2, 3]` is filtered to `[2]`, and reference 2
does not have keyword 9. -/
theorem C2_deny_list_excluded_witness :
    2 ∈ (FilterRefArrayByKeywords keywordWorld 0 [2, 3] (some [7]) (some [9])).1
      ∧ 9 ∈ [9] ∧ keywordWorld.engine.HasKeyword 2 9 = false :=
  ⟨by decide, by decide,
    C2_deny_list_excluded keywordWorld 0 [2, 3] (some [7]) [9] 2 (by decide) 9 (by decide)⟩

/-! Lemmas on GetInventoryItemsAsArray -/

theorem shouldFilterLoop_eq_false (fl : List Bool) (h : ∀ b ∈ fl, b = false) :
    shouldFilterLoop fl = false := by
  induction fl with
  | nil => rfl
  | cons b rest ih =>
    have hb : b = false := h b (List.mem_cons_self _ _)
    subst hb
    simp only [shouldFilterLoop, Bool.false_eq_true, if_false]
    exact ih (fun c hc => h c (List.mem_cons_of_mem _ hc))

theorem allItemsLoop_eq (inv : List BGSInventoryItem) (result : List TESForm) :
    allItemsLoop inv result = result ++ inv.map (fun item => item.object) := by
  induction inv generalizing result with
  | nil => simp [allItemsLoop]
  | cons item rest ih => simp [allItemsLoop, ih]

theorem filterLoop_eq (fl : List Bool) (m : Bool) (inv : List BGSInventoryItem)
    (result : List TESForm) :
    filterLoop fl m inv result
      = result ++ (inv.filter (fun item => itemStep fl m item)).map (fun item => item.object) := by
  induction inv generalizing result with
  | nil => simp [filterLoop]
  | cons item rest ih =>
    by_cases h : itemStep fl m item = true
    · simp [filterLoop, ih, h]
    · simp only [Bool.not_eq_true] at h
      simp [filterLoop, ih, h]

/-- C3 (evaluation at the failing input): with the four flags `[false, false, false, true]` and
match-all true, the inventory of reference 1, which contains form 101 with count 2, yields the
empty result; the stack-count criterion is applied only when a fifth element is present. -/
theorem C3_count_flag_ignored_with_four_flags :
    (GetInventoryItemsAsArray inventoryWorld 0 (some 1) [false, false, false, true] true).1 = []
      ∧ (∃ item ∈ inventoryWorld.engine.inventory 1,
          item.object = 101 ∧ item.stackData.GetCount = 2)
      ∧ (GetInventoryItemsAsArray inventoryWorld 0 (some 1)
          [false, false, false, true, false] true).1 = [101] := by
  decide

/-- C4 (evaluation at the failing input): with the single flag `[true]` and match-all true, the
inventory of reference 1, whose form 100 is equipped, yields the empty result; the equipped
criterion is applied only when a second element is present. -/
theorem C4_equipped_flag_ignored_with_one_flag :
    (GetInventoryItemsAsArray inventoryWorld 0 (some 1) [true] true).1 = []
      ∧ (∃ item ∈ inventoryWorld.engine.inventory 1,
          item.object = 100 ∧ item.stackData.IsEquipped = true)
      ∧ (GetInventoryItemsAsArray inventoryWorld 0 (some 1) [true, false] true).1 = [100] := by
  decide

/-- C5: for a present reference, a filter list without a true flag (the empty list included)
and either value of match-all, GetInventoryItemsAsArray returns the forms of all inventory
entries, one per entry and in inventory order, whatever their attributes, and leaves the VM log
and the engine as they were. -/
theorem C5_no_filter_returns_all (w : World) (a_stackID : VMStackID) (ref : TESObjectREFR)
    (a_filterList : List Bool) (a_matchAll : Bool)
    (hflags : ∀ b ∈ a_filterList, b = false) :
    GetInventoryItemsAsArray w a_stackID (some ref) a_filterList a_matchAll
      = ((w.engine.inventory ref).map (fun item => item.object), w) := by
  simp [GetInventoryItemsAsArray, shouldFilterLoop_eq_false a_filterList hflags,
    allItemsLoop_eq]

/-- C5 witness: with flags `[false, false, false, false]` the four forms of reference 1 are
returned in inventory order. -/
theorem C5_no_filter_returns_all_witness :
    (∀ b ∈ [false, false, false, false], b = false)
      ∧ GetInventoryItemsAsArray inventoryWorld 0 (some 1) [false, false, false, false] true
          = ([100, 101, 102, 103], inventoryWorld) :=
  ⟨by decide,
    C5_no_filter_returns_all inventoryWorld 0 1 [false, false, false, false] true (by decide)⟩

/-! Lemmas on GetClosestActorFromRef -/

theorem actorStep_spec (e : Engine) (ref : TESObjectREFR) (d : Bool)
    (st : Option Actor × ℚ) (h : Option Actor) :
    (actorStep e (e.GetPosition ref) d st h).2 ≤ st.2
      ∧ (∀ a, h = some a → eligible e d a = true →
          (actorStep e (e.GetPosition ref) d st h).2 ≤ originDistance e ref a)
      ∧ (actorStep e (e.GetPosition ref) d st h = st
          ∨ ∃ a, h = some a ∧ eligible e d a = true
              ∧ actorStep e (e.GetPosition ref) d st h = (some a, originDistance e ref a)
              ∧ originDistance e ref a < st.2) := by
  cases h with
  | none => simp [actorStep]
  | some a =>
    by_cases hskip : (!d && e.IsDead a) = true
    · have hne : eligible e d a = false := by
        unfold eligible
        cases d <;> cases hdead : e.IsDead a <;> simp_all
      simp [actorStep, hskip, hne]
    · have hel : eligible e d a = true := by
        unfold eligible
        cases d <;> cases hdead : e.IsDead a <;> simp_all
      by_cases hlt : e.GetDistance (e.GetPosition ref) (e.GetPosition a) < st.2
      · simp only [actorStep, hskip, Bool.false_eq_true, if_false, hlt, if_true]
        refine ⟨le_of_lt hlt, ?_, Or.inr ⟨a, rfl, hel, rfl, hlt⟩⟩
        intro b hb _
        cases hb
        exact le_refl _
      · simp only [actorStep, hskip, Bool.false_eq_true, if_false, hlt]
        refine ⟨le_refl _, ?_, Or.inl trivial⟩
        intro b hb _
        cases hb
        exact not_lt.mp hlt

theorem actorLoop_spec (e : Engine) (ref : TESObjectREFR) (d : Bool)
    (handles : List (Option Actor)) (st : Option Actor × ℚ) :
    (actorLoop e (e.GetPosition ref) d handles st).2 ≤ st.2
      ∧ (∀ a, eligibleActive e handles d a →
          (actorLoop e (e.GetPosition ref) d handles st).2 ≤ originDistance e ref a)
      ∧ (actorLoop e (e.GetPosition ref) d handles st = st
          ∨ ∃ a, eligibleActive e handles d a
              ∧ actorLoop e (e.GetPosition ref) d handles st = (some a, originDistance e ref a)
              ∧ originDistance e ref a < st.2) := by
  induction handles generalizing st with
  | nil =>
    refine ⟨le_refl _, ?_, Or.inl rfl⟩
    intro a ha
    exact absurd ha.1 (List.not_mem_nil _)
  | cons h rest ih =>
    have hstep := actorStep_spec e ref d st h
    have hrest := ih (actorStep e (e.GetPosition ref) d st h)
    have hunf : actorLoop e (e.GetPosition ref) d (h :: rest) st
        = actorLoop e (e.GetPosition ref) d rest (actorStep e (e.GetPosition ref) d st h) := rfl
    rw [hunf]
    obtain ⟨hs1, hs2, hs3⟩ := hstep
    obtain ⟨hr1, hr2, hr3⟩ := hrest
    refine ⟨le_trans hr1 hs1, ?_, ?_⟩
    · intro a ha
      rcases List.mem_cons.mp ha.1 with hhead | htail
      · exact le_trans hr1 (hs2 a hhead.symm ha.2)
      · exact hr2 a ⟨htail, ha.2⟩
    · rcases hr3 with hsame | ⟨a, ha, hval, hlt⟩
      · rcases hs3 with hsame2 | ⟨a, hh, hel, hval, hlt⟩
        · exact Or.inl (hsame.trans hsame2)
        · refine Or.inr ⟨a, ⟨?_, hel⟩, hsame.trans hval, hlt⟩
          rw [hh]
          exact List.mem_cons_self _ _
      · exact Or.inr ⟨a, ⟨List.mem_cons_of_mem _ ha.1, ha.2⟩, hval, lt_of_lt_of_le hlt hs1⟩

theorem GetClosestActorFromRef_result (w : World) (a_stackID : VMStackID) (ref : TESObjectREFR)
    (a_ignorePlayer a_includeDead : Bool) (handles : List (Option Actor))
    (hpl : w.engine.processLists = some handles) :
    (GetClosestActorFromRef w a_stackID (some ref) a_ignorePlayer a_includeDead).1
      = if a_ignorePlayer = false
          ∧ originDistance w.engine ref w.engine.player
            < (actorLoop w.engine (w.engine.GetPosition ref) a_includeDead handles
                (none, FLT_MAX)).2
        then some w.engine.player
        else (actorLoop w.engine (w.engine.GetPosition ref) a_includeDead handles
                (none, FLT_MAX)).1 := by
  unfold GetClosestActorFromRef
  simp only [hpl, originDistance]
  cases a_ignorePlayer
  · by_cases hlt : w.engine.GetDistance (w.engine.GetPosition ref)
        (w.engine.GetPosition w.engine.player)
          < (actorLoop w.engine (w.engine.GetPosition ref) a_includeDead handles
              (none, FLT_MAX)).2
    · simp [hlt]
    · simp [hlt]
  · simp

theorem actorWorld_player_not_ignored :
    (GetClosestActorFromRef actorWorld 0 (some 1) false false).1 = some 14 := by
  norm_num [GetClosestActorFromRef, actorWorld, lineEngine, blankEngine, actorLoop, actorStep,
    FLT_MAX]

theorem actorWorld_player_ignored :
    (GetClosestActorFromRef actorWorld 0 (some 1) true false).1 = some 11 := by
  norm_num [GetClosestActorFromRef, actorWorld, lineEngine, blankEngine, actorLoop, actorStep,
    FLT_MAX]

theorem GetClosestActorFromRef_minimal (w : World) (a_stackID : VMStackID) (ref : TESObjectREFR)
    (a_ignorePlayer a_includeDead : Bool) (handles : List (Option Actor))
    (hpl : w.engine.processLists = some handles) (a : Actor)
    (hres : (GetClosestActorFromRef w a_stackID (some ref) a_ignorePlayer a_includeDead).1
      = some a) :
    isCandidate w.engine handles a_ignorePlayer a_includeDead a
      ∧ ∀ c, isCandidate w.engine handles a_ignorePlayer a_includeDead c →
          ¬ originDistance w.engine ref c < originDistance w.engine ref a := by
  rw [GetClosestActorFromRef_result w a_stackID ref a_ignorePlayer a_includeDead handles hpl]
    at hres
  obtain ⟨_, hmin, hsel⟩ :=
    actorLoop_spec w.engine ref a_includeDead handles (none, FLT_MAX)
  by_cases hp : a_ignorePlayer = false
      ∧ originDistance w.engine ref w.engine.player
        < (actorLoop w.engine (w.engine.GetPosition ref) a_includeDead handles
            (none, FLT_MAX)).2
  · rw [if_pos hp] at hres
    have ha : a = w.engine.player := (Option.some.inj hres).symm
    subst ha
    refine ⟨Or.inr ⟨hp.1, rfl⟩, ?_⟩
    intro c hc
    rcases hc with hact | ⟨_, hplayer⟩
    · exact not_lt.mpr (le_of_lt (lt_of_lt_of_le hp.2 (hmin c hact)))
    · rw [hplayer]
      exact lt_irrefl _
  · rw [if_neg hp] at hres
    rcases hsel with hsame | ⟨a0, ha0, hval, _⟩
    · rw [hsame] at hres
      cases hres
    · rw [hval] at hres
      have ha : a0 = a := Option.some.inj hres
      subst ha
      refine ⟨Or.inl ha0, ?_⟩
      intro c hc
      have hd : (actorLoop w.engine (w.engine.GetPosition ref) a_includeDead handles
          (none, FLT_MAX)).2 = originDistance w.engine ref a0 := by rw [hval]
      rcases hc with hact | ⟨hign, hplayer⟩
      · have := hmin c hact
        rw [hd] at this
        exact not_lt.mpr this
      · rw [hplayer]
        intro hlt
        apply hp
        refine ⟨hign, ?_⟩
        rw [hd]
        exact hlt

theorem GetClosestActorFromRef_ne_none (w : World) (a_stackID : VMStackID)
    (ref : TESObjectREFR) (a_ignorePlayer a_includeDead : Bool) (handles : List (Option Actor))
    (hpl : w.engine.processLists = some handles) (c : Actor)
    (hc : eligibleActive w.engine handles a_includeDead c)
    (hnear : originDistance w.engine ref c < FLT_MAX) :
    (GetClosestActorFromRef w a_stackID (some ref) a_ignorePlayer a_includeDead).1 ≠ none := by
  rw [GetClosestActorFromRef_result w a_stackID ref a_ignorePlayer a_includeDead handles hpl]
  obtain ⟨_, hmin, hsel⟩ :=
    actorLoop_spec w.engine ref a_includeDead handles (none, FLT_MAX)
  split
  · simp
  · rcases hsel with hsame | ⟨a0, _, hval, _⟩
    · have h1 := hmin c hc
      rw [hsame] at h1
      exact absurd hnear (not_lt.mpr h1)
    · rw [hval]
      simp

/-- C6: for a present origin and an available registry, a non-null result of
GetClosestActorFromRef is a candidate (an eligible active actor, or the player when the player
is not ignored), and no candidate is strictly closer to the origin than the result. -/
theorem C6_closest_is_minimal (w : World) (a_stackID : VMStackID) (ref : TESObjectREFR)
    (a_ignorePlayer a_includeDead : Bool) (handles : List (Option Actor))
    (hpl : w.engine.processLists = some handles) (a : Actor)
    (hres : (GetClosestActorFromRef w a_stackID (some ref) a_ignorePlayer a_includeDead).1
      = some a) :
    isCandidate w.engine handles a_ignorePlayer a_includeDead a
      ∧ ∀ c, isCandidate w.engine handles a_ignorePlayer a_includeDead c →
          ¬ originDistance w.engine ref c < originDistance w.engine ref a :=
  GetClosestActorFromRef_minimal w a_stackID ref a_ignorePlayer a_includeDead handles hpl a hres

/-- C6 witness: with active actors at distances 10, 5, 15 and the player at distance 3, the
player is returned when it is not ignored and the distance-5 actor when it is; the returned
player is a candidate and no candidate is strictly closer. -/
theorem C6_closest_is_minimal_witness :
    (GetClosestActorFromRef actorWorld 0 (some 1) false false).1 = some 14
      ∧ (GetClosestActorFromRef actorWorld 0 (some 1) true false).1 = some 11
      ∧ isCandidate actorWorld.engine [some 12, none, some 11, some 13] false false 14
      ∧ ∀ c, isCandidate actorWorld.engine [some 12, none, some 11, some 13] false false c →
          ¬ originDistance actorWorld.engine 1 c < originDistance actorWorld.engine 1 14 :=
  ⟨actorWorld_player_not_ignored, actorWorld_player_ignored,
    C6_closest_is_minimal actorWorld 0 1 false false [some 12, none, some 11, some 13] rfl 14
      actorWorld_player_not_ignored⟩

theorem deadActorWorld_result :
    (GetClosestActorFromRef deadActorWorld 0 (some 1) false false).1 = some 11 := by
  norm_num [GetClosestActorFromRef, deadActorWorld, lineEngine, blankEngine, actorLoop,
    actorStep, FLT_MAX]

theorem deadPlayerWorld_result :
    (GetClosestActorFromRef deadPlayerWorld 0 (some 1) false false).1 = some 14 := by
  norm_num [GetClosestActorFromRef, deadPlayerWorld, lineEngine, blankEngine, actorLoop,
    actorStep, FLT_MAX]

theorem farWorld_result (a_ignorePlayer : Bool) :
    (GetClosestActorFromRef farWorld 0 (some 1) a_ignorePlayer false).1 = none := by
  cases a_ignorePlayer <;>
    norm_num [GetClosestActorFromRef, farWorld, lineEngine, blankEngine, actorLoop,
      actorStep, FLT_MAX]

theorem tieWorld_result :
    (GetClosestActorFromRef tieWorld 0 (some 1) false false).1 = some 11 := by
  norm_num [GetClosestActorFromRef, tieWorld, lineEngine, blankEngine, actorLoop,
    actorStep, FLT_MAX]

/-- C7 (evaluation at the failing input): with include-dead false and the player not ignored,
the player, dead and at distance 1, is returned although the living active actor 11 stands at
distance 5: the test for dead actors is made in the scan of the registry only, where it works
(the dead active actor 10 at distance 1 is skipped and the living actor 11 at distance 5 is
returned), and not on the player. -/
theorem C7_dead_player_is_returned :
    ((GetClosestActorFromRef deadPlayerWorld 0 (some 1) false false).1
          = some deadPlayerWorld.engine.player
        ∧ deadPlayerWorld.engine.IsDead deadPlayerWorld.engine.player = true
        ∧ deadPlayerWorld.engine.processLists = some [some 11]
        ∧ deadPlayerWorld.engine.IsDead 11 = false)
      ∧ ((GetClosestActorFromRef deadActorWorld 0 (some 1) false false).1 = some 11
        ∧ deadActorWorld.engine.processLists = some [some 10, some 12, some 11]
        ∧ deadActorWorld.engine.IsDead 10 = true
        ∧ deadActorWorld.engine.IsDead 11 = false) :=
  ⟨⟨deadPlayerWorld_result, by decide, rfl, by decide⟩,
    deadActorWorld_result, rfl, by decide, by decide⟩

/-- C9: for a present reference and every value v, SetHealthPercent posts the error "Invalid
value. Must not be less than 0 or more than 1" if and only if v < 0 or v > 1; in that case
nothing else is posted and the engine, the reference's health override included, is unchanged;
when 0 <= v <= 1 (both bounds included) nothing is posted and the health override read
afterwards is v. -/
theorem C9_health_percent_range (w : World) (a_stackID : VMStackID) (ref : TESObjectREFR)
    (v : ℚ) :
    ((SetHealthPercent w a_stackID (some ref) v).2.vm
          = w.vm ++ [⟨"Invalid value. Must not be less than 0 or more than 1", a_stackID,
              Severity.kError⟩]
        ↔ (v < 0 ∨ v > 1))
      ∧ ((v < 0 ∨ v > 1) →
          (SetHealthPercent w a_stackID (some ref) v).2.engine = w.engine
            ∧ (SetHealthPercent w a_stackID (some ref) v).2.engine.healthPercent ref
                = w.engine.healthPercent ref)
      ∧ ((0 ≤ v ∧ v ≤ 1) →
          (SetHealthPercent w a_stackID (some ref) v).2.vm = w.vm
            ∧ (SetHealthPercent w a_stackID (some ref) v).2.engine.healthPercent ref
                = some v) := by
  by_cases hv : v < 0 ∨ v > 1
  · have hout : SetHealthPercent w a_stackID (some ref) v
        = ((), w.PostError "Invalid value. Must not be less than 0 or more than 1"
            a_stackID) := by
      simp only [SetHealthPercent, if_pos hv]
    rw [hout]
    refine ⟨⟨fun _ => hv, fun _ => rfl⟩, fun _ => ⟨rfl, rfl⟩, ?_⟩
    intro hrange
    rcases hv with h | h
    · exact absurd h (not_lt.mpr hrange.1)
    · exact absurd h (not_lt.mpr hrange.2)
  · have hout : SetHealthPercent w a_stackID (some ref) v
        = ((), { w with engine := w.engine.SetHealthPercent ref v }) := by
      simp only [SetHealthPercent, if_neg hv]
    rw [hout]
    refine ⟨⟨?_, fun h => absurd h hv⟩, fun h => absurd h hv, fun _ => ⟨rfl, ?_⟩⟩
    · intro h
      simp at h
    · simp [Engine.SetHealthPercent]

/-- C9 witness: on a reference whose health override is 3/4, the values 3/2 and -1/10 are
rejected and leave the override at 3/4, and the value 1/2 is stored. -/
theorem C9_health_percent_range_witness :
    (SetHealthPercent healthWorld 0 (some 1) (3 / 2)).2.engine.healthPercent 1 = some (3 / 4)
      ∧ (SetHealthPercent healthWorld 0 (some 1) (-1 / 10)).2.engine.healthPercent 1
          = some (3 / 4)
      ∧ (SetHealthPercent healthWorld 0 (some 1) (1 / 2)).2.engine.healthPercent 1
          = some (1 / 2) :=
  ⟨(((C9_health_percent_range healthWorld 0 1 (3 / 2)).2.1 (by norm_num)).2).trans
      (by simp [healthWorld]),
    (((C9_health_percent_range healthWorld 0 1 (-1 / 10)).2.1 (by norm_num)).2).trans
      (by simp [healthWorld]),
    ((C9_health_percent_range healthWorld 0 1 (1 / 2)).2.2 (by norm_num)).2⟩

/-- C10: each of GetAnimationLength, GetAnimationTime, GetClosestActorFromRef,
GetDoorDestination, GetInventoryItemsAsArray, GetKeywordsRef, GetWeightInContainer, IsInWater,
SetDoorDestination and SetHealthPercent, called with an absent reference and any other
arguments, returns its neutral default, posts exactly one error, "Ref is None", and changes
nothing in the engine; SetDoorDestination with a present source and an absent destination
returns false, posts exactly one error, "Destination Ref is None", and changes nothing in the
engine. -/
theorem C10_absent_reference (w : World) (a_stackID : VMStackID) (a_ignorePlayer : Bool)
    (a_includeDead : Bool) (a_filterList : List Bool) (a_matchAll : Bool)
    (a_door : Option TESObjectREFR) (a_healthPerc : ℚ) (ref : TESObjectREFR) :
    ((GetAnimationLength w a_stackID none).1 = 0
        ∧ postsOnly w (GetAnimationLength w a_stackID none).2 "Ref is None" a_stackID)
      ∧ ((GetAnimationTime w a_stackID none).1 = 0
        ∧ postsOnly w (GetAnimationTime w a_stackID none).2 "Ref is None" a_stackID)
      ∧ ((GetClosestActorFromRef w a_stackID none a_ignorePlayer a_includeDead).1 = none
        ∧ postsOnly w (GetClosestActorFromRef w a_stackID none a_ignorePlayer a_includeDead).2
            "Ref is None" a_stackID)
      ∧ ((GetDoorDestination w a_stackID none).1 = none
        ∧ postsOnly w (GetDoorDestination w a_stackID none).2 "Ref is None" a_stackID)
      ∧ ((GetInventoryItemsAsArray w a_stackID none a_filterList a_matchAll).1 = []
        ∧ postsOnly w (GetInventoryItemsAsArray w a_stackID none a_filterList a_matchAll).2
            "Ref is None" a_stackID)
      ∧ ((GetKeywordsRef w a_stackID none).1 = []
        ∧ postsOnly w (GetKeywordsRef w a_stackID none).2 "Ref is None" a_stackID)
      ∧ ((GetWeightInContainer w a_stackID none).1 = 0
        ∧ postsOnly w (GetWeightInContainer w a_stackID none).2 "Ref is None" a_stackID)
      ∧ ((IsInWater w a_stackID none).1 = false
        ∧ postsOnly w (IsInWater w a_stackID none).2 "Ref is None" a_stackID)
      ∧ ((SetDoorDestination w a_stackID none a_door).1 = false
        ∧ postsOnly w (SetDoorDestination w a_stackID none a_door).2 "Ref is None" a_stackID)
      ∧ ((SetHealthPercent w a_stackID none a_healthPerc).1 = ()
        ∧ postsOnly w (SetHealthPercent w a_stackID none a_healthPerc).2 "Ref is None"
            a_stackID)
      ∧ ((SetDoorDestination w a_stackID (some ref) none).1 = false
        ∧ postsOnly w (SetDoorDestination w a_stackID (some ref) none).2
            "Destination Ref is None" a_stackID) := by
  refine ⟨⟨rfl, rfl, rfl⟩, ⟨rfl, rfl, rfl⟩, ⟨rfl, rfl, rfl⟩, ⟨rfl, rfl, rfl⟩, ⟨rfl, rfl, rfl⟩,
    ⟨rfl, rfl, rfl⟩, ⟨rfl, rfl, rfl⟩, ⟨rfl, rfl, rfl⟩, ⟨rfl, rfl, rfl⟩, ⟨rfl, rfl, rfl⟩,
    ⟨rfl, rfl, rfl⟩⟩

/-! Claims on the empty array, on doors and on animation queries -/

/-- C11: for every allow-list and deny-list, supplied or not, FilterRefArrayByKeywords on the
empty array returns the empty sequence and posts exactly one error, "Ref array is empty"; on
every non-empty array it posts no error and leaves the engine as it was. -/
theorem C11_empty_array (w : World) (a_stackID : VMStackID)
    (a_whiteList a_blackList : Option (List BGSKeyword)) :
    ((FilterRefArrayByKeywords w a_stackID [] a_whiteList a_blackList).1 = []
        ∧ postsOnly w (FilterRefArrayByKeywords w a_stackID [] a_whiteList a_blackList).2
            "Ref array is empty" a_stackID)
      ∧ ∀ a_refArray : List TESObjectREFR, a_refArray ≠ [] →
          (FilterRefArrayByKeywords w a_stackID a_refArray a_whiteList a_blackList).2 = w := by
  refine ⟨⟨rfl, rfl, rfl⟩, ?_⟩
  intro a_refArray hne
  cases a_refArray with
  | nil => exact absurd rfl hne
  | cons r rest => rfl

/-- C11 witness: the empty array posts the one error, and the array `[2, 3]` leaves the world,
its error log included, as it was. -/
theorem C11_empty_array_witness :
    (FilterRefArrayByKeywords keywordWorld 4 [] (some [7]) (some [9])).2.vm
        = [⟨"Ref array is empty", 4, Severity.kError⟩]
      ∧ (FilterRefArrayByKeywords keywordWorld 4 [2, 3] (some [7]) (some [9])).2
          = keywordWorld :=
  ⟨(C11_empty_array keywordWorld 4 (some [7]) (some [9])).1.2.1,
    (C11_empty_array keywordWorld 4 (some [7]) (some [9])).2 [2, 3] (by decide)⟩

/-- C12: for a present reference without teleport data (no ExtraTeleport entry, or an entry
whose teleport data is null) and a present destination, GetDoorDestination returns null and
posts no error, and SetDoorDestination returns false, posts no error and leaves the whole
engine state unchanged. -/
theorem C12_no_teleport_data (w : World) (a_stackID : VMStackID) (ref door : TESObjectREFR)
    (hno : w.engine.extraTeleport ref = none ∨ w.engine.extraTeleport ref = some none) :
    GetDoorDestination w a_stackID (some ref) = (none, w)
      ∧ SetDoorDestination w a_stackID (some ref) (some door) = (false, w) := by
  have hdata : teleportDataOf w.engine ref = none := by
    unfold teleportDataOf
    rcases hno with h | h <;> rw [h]
  constructor
  · simp only [GetDoorDestination, hdata]
  · simp only [SetDoorDestination, hdata]

/-- C12 witness: reference 4 has no ExtraTeleport entry; the lookup returns null and the set
returns false, both leaving the world as it was. -/
theorem C12_no_teleport_data_witness :
    (doorWorld.engine.extraTeleport 4 = none ∨ doorWorld.engine.extraTeleport 4 = some none)
      ∧ GetDoorDestination doorWorld 0 (some 4) = (none, doorWorld)
      ∧ SetDoorDestination doorWorld 0 (some 4) (some 2) = (false, doorWorld) :=
  ⟨Or.inl (by decide), C12_no_teleport_data doorWorld 0 4 2 (Or.inl (by decide))⟩

/-- C13: for a present reference r that carries teleport data and a present destination d,
SetDoorDestination(r, d) returns true and posts no error, a subsequent GetDoorDestination(r)
returns d without posting an error, and the door destination of every reference that does not
share r's teleport data is what it was before. -/
theorem C13_door_round_trip (w : World) (a_stackID laterStackID : VMStackID)
    (r d : TESObjectREFR) (teleportData : DoorTeleportData)
    (hdata : w.engine.extraTeleport r = some (some teleportData)) :
    (SetDoorDestination w a_stackID (some r) (some d)).1 = true
      ∧ (SetDoorDestination w a_stackID (some r) (some d)).2.vm = w.vm
      ∧ GetDoorDestination (SetDoorDestination w a_stackID (some r) (some d)).2 laterStackID
            (some r)
          = (some d, (SetDoorDestination w a_stackID (some r) (some d)).2)
      ∧ ∀ other : TESObjectREFR, teleportDataOf w.engine other ≠ some teleportData →
          (GetDoorDestination (SetDoorDestination w a_stackID (some r) (some d)).2
              laterStackID (some other)).1
            = (GetDoorDestination w laterStackID (some other)).1 := by
  have hof : teleportDataOf w.engine r = some teleportData := by
    unfold teleportDataOf
    rw [hdata]
  have hset : SetDoorDestination w a_stackID (some r) (some d)
      = (true, { w with engine := w.engine.setLinkedDoor teleportData d }) := by
    simp only [SetDoorDestination, hof]
  have hkeep : ∀ x, teleportDataOf (w.engine.setLinkedDoor teleportData d) x
      = teleportDataOf w.engine x := fun _ => rfl
  rw [hset]
  refine ⟨rfl, rfl, ?_, ?_⟩
  · simp only [GetDoorDestination, hkeep, hof]
    simp [Engine.setLinkedDoor]
  · intro other hother
    simp only [GetDoorDestination, hkeep]
    cases hx : teleportDataOf w.engine other with
    | none => rfl
    | some t =>
      have hne : t ≠ teleportData := by
        intro h
        apply hother
        rw [hx, h]
      simp [Engine.setLinkedDoor, hne]

/-- C13 witness: reference 1 carries teleport data 50; setting its destination to 9 returns
true, the lookup on reference 1 then returns 9, and the lookup on reference 5, which carries
other teleport data, still returns 6. -/
theorem C13_door_round_trip_witness :
    doorWorld.engine.extraTeleport 1 = some (some 50)
      ∧ (SetDoorDestination doorWorld 0 (some 1) (some 9)).1 = true
      ∧ (GetDoorDestination (SetDoorDestination doorWorld 0 (some 1) (some 9)).2 0
          (some 1)).1 = some 9
      ∧ (GetDoorDestination (SetDoorDestination doorWorld 0 (some 1) (some 9)).2 0
          (some 5)).1 = some 6 :=
  ⟨by decide, (C13_door_round_trip doorWorld 0 0 1 9 50 (by decide)).1,
    congrArg Prod.fst (C13_door_round_trip doorWorld 0 0 1 9 50 (by decide)).2.2.1,
    ((C13_door_round_trip doorWorld 0 0 1 9 50 (by decide)).2.2.2 5 (by decide)).trans
      (by decide)⟩

/-- C14: for a present reference for which the engine yields no active sync info,
GetAnimationLength and GetAnimationTime return 0.0 and post no error; and for every present
reference neither operation posts an error or changes the engine. -/
theorem C14_no_active_graph (w : World) (a_stackID : VMStackID) (ref : TESObjectREFR) :
    (w.engine.GetActiveSyncInfo ref = none →
        GetAnimationLength w a_stackID (some ref) = (0, w)
          ∧ GetAnimationTime w a_stackID (some ref) = (0, w))
      ∧ (GetAnimationLength w a_stackID (some ref)).2 = w
      ∧ (GetAnimationTime w a_stackID (some ref)).2 = w := by
  refine ⟨?_, ?_, ?_⟩
  · intro hnone
    constructor
    · simp only [GetAnimationLength, hnone]
      split <;> rfl
    · simp only [GetAnimationTime, hnone]
      split <;> rfl
  · simp only [GetAnimationLength]
    repeat (first | rfl | split)
  · simp only [GetAnimationTime]
    repeat (first | rfl | split)

/-- C14 witness: reference 7 has no active sync info; both queries return 0 and leave the
world, its error log included, as it was. -/
theorem C14_no_active_graph_witness :
    animationWorld.engine.GetActiveSyncInfo 7 = none
      ∧ GetAnimationLength animationWorld 0 (some 7) = (0, animationWorld)
      ∧ GetAnimationTime animationWorld 0 (some 7) = (0, animationWorld) :=
  ⟨by decide, (C14_no_active_graph animationWorld 0 7).1 (by decide)⟩

/-- C15 (counterexample): the only active actor is living and the player is living, both
farther from the origin than `FLT_MAX`; the result is null whether the player is ignored or
not, although a candidate exists in both cases. -/
theorem C15_null_despite_candidates :
    ((GetClosestActorFromRef farWorld 0 (some 1) true false).1 = none
        ∧ isCandidate farWorld.engine [some 11] true false 11)
      ∧ ((GetClosestActorFromRef farWorld 0 (some 1) false false).1 = none
        ∧ isCandidate farWorld.engine [some 11] false false farWorld.engine.player) := by
  refine ⟨⟨farWorld_result true, Or.inl ?_⟩, farWorld_result false, Or.inr ⟨rfl, rfl⟩⟩
  unfold eligibleActive
  decide

/-- C15 (amended): for a present origin and an available registry, the result of
GetClosestActorFromRef is null if and only if no candidate is closer to the origin than
`FLT_MAX`, i.e. the player is ignored or not closer than `FLT_MAX`, and the registry holds no
non-null actor that is living or admitted by include-dead and closer than `FLT_MAX`; when the
registry is unavailable the result is null and exactly one error, "Unable to obtain list of
Actors", is posted. -/
theorem C15_null_result (w : World) (a_stackID : VMStackID) (ref : TESObjectREFR)
    (a_ignorePlayer a_includeDead : Bool) :
    (∀ handles, w.engine.processLists = some handles →
        ((GetClosestActorFromRef w a_stackID (some ref) a_ignorePlayer a_includeDead).1 = none
          ↔ ¬ ∃ c, isCandidate w.engine handles a_ignorePlayer a_includeDead c
                ∧ originDistance w.engine ref c < FLT_MAX))
      ∧ (w.engine.processLists = none →
          (GetClosestActorFromRef w a_stackID (some ref) a_ignorePlayer a_includeDead).1 = none
            ∧ postsOnly w
                (GetClosestActorFromRef w a_stackID (some ref) a_ignorePlayer a_includeDead).2
                "Unable to obtain list of Actors" a_stackID) := by
  constructor
  · intro handles hpl
    rw [GetClosestActorFromRef_result w a_stackID ref a_ignorePlayer a_includeDead handles hpl]
    obtain ⟨hle, hmin, hsel⟩ :=
      actorLoop_spec w.engine ref a_includeDead handles (none, FLT_MAX)
    by_cases hp : a_ignorePlayer = false
        ∧ originDistance w.engine ref w.engine.player
          < (actorLoop w.engine (w.engine.GetPosition ref) a_includeDead handles
              (none, FLT_MAX)).2
    · rw [if_pos hp]
      constructor
      · intro h
        cases h
      · intro hnone
        exact absurd ⟨w.engine.player, Or.inr ⟨hp.1, rfl⟩, lt_of_lt_of_le hp.2 hle⟩ hnone
    · rw [if_neg hp]
      rcases hsel with hsame | ⟨a0, ha0, hval, hlt⟩
      · rw [hsame] at hmin hp ⊢
        refine ⟨fun _ => ?_, fun _ => rfl⟩
        rintro ⟨c, hc, hnear⟩
        rcases hc with hact | ⟨hign, hplayer⟩
        · exact absurd hnear (not_lt.mpr (hmin c hact))
        · apply hp
          rw [hplayer] at hnear
          exact ⟨hign, hnear⟩
      · rw [hval]
        constructor
        · intro h
          cases h
        · intro hnone
          exact absurd ⟨a0, Or.inl ha0, hlt⟩ hnone
  · intro hpl
    have hout : GetClosestActorFromRef w a_stackID (some ref) a_ignorePlayer a_includeDead
        = (none, w.PostError "Unable to obtain list of Actors" a_stackID) := by
      simp only [GetClosestActorFromRef, hpl]
    rw [hout]
    exact ⟨rfl, rfl, rfl⟩

/-- C15 witness: with an empty registry and the player ignored there is no candidate and the
result is null. -/
theorem C15_null_result_witness :
    healthWorld.engine.processLists = some []
      ∧ (GetClosestActorFromRef healthWorld 0 (some 1) true false).1 = none :=
  ⟨rfl, ((C15_null_result healthWorld 0 1 true false).1 [] rfl).mpr (by
    rintro ⟨c, hc, _⟩
    rcases hc with hact | ⟨hign, _⟩
    · exact absurd hact.1 (List.not_mem_nil _)
    · cases hign)⟩

/-- C17 (counterexample): reference 2 has total time 0 and current time 5, so
GetAnimationLength returns 0 and GetAnimationTime nevertheless returns 5; reference 3 has total
time 10 and current time -1, so GetAnimationLength returns the total time and GetAnimationTime
nevertheless returns 0, not the current time. -/
theorem C17_time_tests_current_time :
    ((GetAnimationLength animationWorld 0 (some 2)).1 = 0
        ∧ (GetAnimationTime animationWorld 0 (some 2)).1 = 5)
      ∧ ((GetAnimationLength animationWorld 0 (some 3)).1 = 10
        ∧ (GetAnimationTime animationWorld 0 (some 3)).1 = 0
        ∧ animationWorld.engine.GetActiveSyncInfo 3 = some ⟨10, -1⟩) := by
  refine ⟨⟨?_, ?_⟩, ?_, ?_, ?_⟩ <;>
    norm_num [GetAnimationLength, GetAnimationTime, animationWorld, blankEngine]

/-- C17 (amended): GetAnimationTime uses the preconditions of GetAnimationLength with the
current time in place of the total time: for a present reference it returns the current elapsed
animation time when the active graph is not mid-transition, sync info is available and the
current elapsed time is positive, and 0.0 in every other case, just as GetAnimationLength
returns the total time when the graph is not mid-transition, sync info is available and the
total time is positive, and 0.0 in every other case. -/
theorem C17_animation_time_conditions (w : World) (a_stackID : VMStackID)
    (ref : TESObjectREFR) :
    ((∀ syncInfo, w.engine.IsActiveGraphInTransition ref = false →
          w.engine.GetActiveSyncInfo ref = some syncInfo → syncInfo.currentAnimTime > 0 →
          (GetAnimationTime w a_stackID (some ref)).1 = syncInfo.currentAnimTime)
        ∧ (w.engine.IsActiveGraphInTransition ref = true →
          (GetAnimationTime w a_stackID (some ref)).1 = 0)
        ∧ (w.engine.GetActiveSyncInfo ref = none →
          (GetAnimationTime w a_stackID (some ref)).1 = 0)
        ∧ (∀ syncInfo, w.engine.GetActiveSyncInfo ref = some syncInfo →
          ¬ syncInfo.currentAnimTime > 0 →
          (GetAnimationTime w a_stackID (some ref)).1 = 0))
      ∧ ((∀ syncInfo, w.engine.IsActiveGraphInTransition ref = false →
          w.engine.GetActiveSyncInfo ref = some syncInfo → syncInfo.totalAnimTime > 0 →
          (GetAnimationLength w a_stackID (some ref)).1 = syncInfo.totalAnimTime)
        ∧ (w.engine.IsActiveGraphInTransition ref = true →
          (GetAnimationLength w a_stackID (some ref)).1 = 0)
        ∧ (w.engine.GetActiveSyncInfo ref = none →
          (GetAnimationLength w a_stackID (some ref)).1 = 0)
        ∧ (∀ syncInfo, w.engine.GetActiveSyncInfo ref = some syncInfo →
          ¬ syncInfo.totalAnimTime > 0 →
          (GetAnimationLength w a_stackID (some ref)).1 = 0)) := by
  refine ⟨⟨?_, ?_, ?_, ?_⟩, ?_, ?_, ?_, ?_⟩
  · intro syncInfo ht hs hpos
    simp [GetAnimationTime, ht, hs, hpos]
  · intro ht
    simp [GetAnimationTime, ht]
  · intro hs
    simp only [GetAnimationTime, hs]
    split <;> rfl
  · intro syncInfo hs hpos
    simp only [GetAnimationTime, hs, if_neg hpos]
    split <;> rfl
  · intro syncInfo ht hs hpos
    simp [GetAnimationLength, ht, hs, hpos]
  · intro ht
    simp [GetAnimationLength, ht]
  · intro hs
    simp only [GetAnimationLength, hs]
    split <;> rfl
  · intro syncInfo hs hpos
    simp only [GetAnimationLength, hs, if_neg hpos]
    split <;> rfl

/-- C17 witness: reference 1, not in transition, has total time 10 and current time 4;
GetAnimationTime returns 4. -/
theorem C17_animation_time_conditions_witness :
    animationWorld.engine.IsActiveGraphInTransition 1 = false
      ∧ animationWorld.engine.GetActiveSyncInfo 1 = some ⟨10, 4⟩
      ∧ (GetAnimationTime animationWorld 0 (some 1)).1 = 4 :=
  ⟨by decide, by decide,
    (C17_animation_time_conditions animationWorld 0 1).1.1 ⟨10, 4⟩ (by decide) (by decide)
      (by norm_num)⟩

/-! The sticky flag of FilterRefArrayByKeywords -/

theorem whiteListLoop_eq (e : Engine) (r : TESObjectREFR) (wl : List BGSKeyword) (s : Bool) :
    whiteListLoop e r wl s = (s && wl.all (fun k => e.HasKeyword r k)) := by
  induction wl with
  | nil => simp [whiteListLoop]
  | cons k rest ih =>
    unfold whiteListLoop
    cases hk : e.HasKeyword r k
    · simp [hk]
    · simp [hk, ih]

theorem blackListLoop_eq (e : Engine) (r : TESObjectREFR) (bl : List BGSKeyword) (s : Bool) :
    blackListLoop e r bl s = (s && bl.all (fun k => !e.HasKeyword r k)) := by
  induction bl with
  | nil => simp [blackListLoop]
  | cons k rest ih =>
    unfold blackListLoop
    cases hk : e.HasKeyword r k
    · simp [hk, ih]
    · simp [hk]

theorem refStep_eq (e : Engine) (wl bl : Option (List BGSKeyword)) (r : TESObjectREFR)
    (s : Bool) : refStep e wl bl r s = (s && passesFilter e wl bl r) := by
  cases wl <;> cases bl <;>
    simp [refStep, passesFilter, whiteListLoop_eq, blackListLoop_eq, Bool.and_assoc]

theorem refLoop_false (e : Engine) (wl bl : Option (List BGSKeyword))
    (refs : List TESObjectREFR) (result : List TESObjectREFR) :
    refLoop e wl bl refs false result = result := by
  induction refs generalizing result with
  | nil => rfl
  | cons r rest ih =>
    unfold refLoop
    simp [refStep_eq, ih]

theorem refLoop_true (e : Engine) (wl bl : Option (List BGSKeyword))
    (refs : List TESObjectREFR) (result : List TESObjectREFR) :
    refLoop e wl bl refs true result = result ++ refs.takeWhile (passesFilter e wl bl) := by
  induction refs generalizing result with
  | nil => simp [refLoop]
  | cons r rest ih =>
    unfold refLoop
    cases hp : passesFilter e wl bl r
    · simp [refStep_eq, hp, refLoop_false, List.takeWhile_cons]
    · simp [refStep_eq, hp, ih, List.takeWhile_cons]

theorem takeWhile_prefix_before_failure (p : TESObjectREFR → Bool)
    (pre post : List TESObjectREFR) (x : TESObjectREFR) (hx : p x = false) :
    (pre ++ x :: post).takeWhile p <+: pre := by
  induction pre with
  | nil => simp [List.takeWhile_cons, hx]
  | cons a rest ih =>
    cases ha : p a
    · simp [List.takeWhile_cons, ha]
    · simp only [List.cons_append, List.takeWhile_cons, ha, if_true]
      exact (List.prefix_cons_inj a).mpr ih

/-- C16: for a non-empty reference array and optional allow and deny lists, the result of
FilterRefArrayByKeywords is the longest prefix of the array all of whose elements have every
allow-list keyword (when supplied) and no deny-list keyword (when supplied); it is a prefix of
the array, and once a reference is excluded nothing at or after its position is in the
result: the result is a prefix of what stands before it. -/
theorem C16_sticky_exclusion (w : World) (a_stackID : VMStackID)
    (a_refArray : List TESObjectREFR) (a_whiteList a_blackList : Option (List BGSKeyword))
    (hne : a_refArray ≠ []) :
    (FilterRefArrayByKeywords w a_stackID a_refArray a_whiteList a_blackList).1
        = a_refArray.takeWhile (passesFilter w.engine a_whiteList a_blackList)
      ∧ (FilterRefArrayByKeywords w a_stackID a_refArray a_whiteList a_blackList).1
          <+: a_refArray
      ∧ ∀ (pre post : List TESObjectREFR) (x : TESObjectREFR),
          a_refArray = pre ++ x :: post →
          passesFilter w.engine a_whiteList a_blackList x = false →
          (FilterRefArrayByKeywords w a_stackID a_refArray a_whiteList a_blackList).1
            <+: pre := by
  have hres : (FilterRefArrayByKeywords w a_stackID a_refArray a_whiteList a_blackList).1
      = a_refArray.takeWhile (passesFilter w.engine a_whiteList a_blackList) := by
    cases a_refArray with
    | nil => exact absurd rfl hne
    | cons r rest =>
      simp only [FilterRefArrayByKeywords, List.isEmpty_cons, Bool.false_eq_true, if_false]
      rw [refLoop_true]
      simp
  rw [hres]
  refine ⟨rfl, List.takeWhile_prefix _, ?_⟩
  intro pre post x hsplit hx
  rw [hsplit]
  exact takeWhile_prefix_before_failure _ pre post x hx

/-- C16 witness: with allow-list `[7]`, reference 1 lacks keyword 7 and references 2 and 3 have
it; the array `[2, 1, 3]` is filtered to its prefix `[2]`, and reference 3, which stands after
the excluded reference 1, is not in the result. -/
theorem C16_sticky_exclusion_witness :
    (FilterRefArrayByKeywords keywordWorld 0 [2, 1, 3] (some [7]) none).1
        = [2, 1, 3].takeWhile (passesFilter keywordWorld.engine (some [7]) none)
      ∧ (FilterRefArrayByKeywords keywordWorld 0 [2, 1, 3] (some [7]) none).1 = [2]
      ∧ passesFilter keywordWorld.engine (some [7]) none 3 = true :=
  ⟨(C16_sticky_exclusion keywordWorld 0 [2, 1, 3] (some [7]) none (by decide)).1,
    by decide, by decide⟩

/-! The guards of GetInventoryItemsAsArray -/

theorem shouldFilterLoop_eq_true (fl : List Bool) (h : ∃ b ∈ fl, b = true) :
    shouldFilterLoop fl = true := by
  induction fl with
  | nil =>
    obtain ⟨b, hb, _⟩ := h
    exact absurd hb (List.not_mem_nil _)
  | cons a rest ih =>
    cases a with
    | true => simp [shouldFilterLoop]
    | false =>
      simp only [shouldFilterLoop, Bool.false_eq_true, if_false]
      apply ih
      obtain ⟨b, hb, hbt⟩ := h
      rcases List.mem_cons.mp hb with hhead | htail
      · rw [hhead] at hbt
        cases hbt
      · exact ⟨b, htail, hbt⟩

theorem itemStep_last_flag (pre : List Bool) (b b2 m : Bool) (item : BGSInventoryItem)
    (hlen : pre.length ≤ 3) :
    itemStep (pre ++ [b]) m item = itemStep (pre ++ [b2]) m item := by
  rcases pre with _ | ⟨f0, _ | ⟨f1, _ | ⟨f2, _ | ⟨f3, rest⟩⟩⟩⟩
  · simp [itemStep, criterionBlock]
  · simp [itemStep, criterionBlock]
  · simp [itemStep, criterionBlock]
  · simp [itemStep, criterionBlock]
  · simp at hlen

theorem itemStep_only_last_flag (pre : List Bool) (m : Bool) (item : BGSInventoryItem)
    (hlen : pre.length ≤ 3) (hpre : ∀ f ∈ pre, f = false) :
    itemStep (pre ++ [true]) m item = false := by
  rcases pre with _ | ⟨f0, _ | ⟨f1, _ | ⟨f2, _ | ⟨f3, rest⟩⟩⟩⟩
  · simp [itemStep, criterionBlock]
  · have h0 : f0 = false := hpre f0 (by simp)
    subst h0
    simp [itemStep, criterionBlock]
  · have h0 : f0 = false := hpre f0 (by simp)
    have h1 : f1 = false := hpre f1 (by simp)
    subst h0 h1
    simp [itemStep, criterionBlock]
  · have h0 : f0 = false := hpre f0 (by simp)
    have h1 : f1 = false := hpre f1 (by simp)
    have h2 : f2 = false := hpre f2 (by simp)
    subst h0 h1 h2
    simp [itemStep, criterionBlock]
  · simp at hlen

theorem itemStep_beyond_four (f0 f1 f2 f3 : Bool) (tail tail2 : List Bool) (m : Bool)
    (item : BGSInventoryItem) (htail : tail ≠ []) (htail2 : tail2 ≠ []) :
    itemStep ([f0, f1, f2, f3] ++ tail) m item = itemStep ([f0, f1, f2, f3] ++ tail2) m item := by
  cases tail with
  | nil => exact absurd rfl htail
  | cons t ts =>
    cases tail2 with
    | nil => exact absurd rfl htail2
    | cons t2 ts2 => simp [itemStep]

theorem filterLoop_nothing_marked (fl : List Bool) (m : Bool) (inv : List BGSInventoryItem)
    (hstep : ∀ item, itemStep fl m item = false) :
    filterLoop fl m inv [] = [] := by
  rw [filterLoop_eq]
  simp [hstep]

/-- C18: the flag at index i of the filter list is applied only when the list has more than
i+1 elements. The last element of a list of length 1 to 4 never contributes a criterion: the
decision on every item is the same whatever its value, and for every inventory and either value
of match-all a list of length 1 to 4 whose only true flag is its last element yields the empty
result. A flag at index 4 or beyond only switches filtering on: the decision on every item is
the same whatever stands from index 4 on, and a list whose first four flags are false and which
has a true flag further on yields the empty result. -/
theorem C18_flag_position_guard (w : World) (a_stackID : VMStackID) (ref : TESObjectREFR)
    (a_matchAll : Bool) :
    (∀ (pre : List Bool) (b b2 : Bool) (item : BGSInventoryItem), pre.length ≤ 3 →
        itemStep (pre ++ [b]) a_matchAll item = itemStep (pre ++ [b2]) a_matchAll item)
      ∧ (∀ pre : List Bool, pre.length ≤ 3 → (∀ f ∈ pre, f = false) →
          GetInventoryItemsAsArray w a_stackID (some ref) (pre ++ [true]) a_matchAll = ([], w))
      ∧ (∀ (f0 f1 f2 f3 : Bool) (tail tail2 : List Bool) (item : BGSInventoryItem),
          tail ≠ [] → tail2 ≠ [] →
          itemStep ([f0, f1, f2, f3] ++ tail) a_matchAll item
            = itemStep ([f0, f1, f2, f3] ++ tail2) a_matchAll item)
      ∧ (∀ tail : List Bool, (∃ f ∈ tail, f = true) →
          GetInventoryItemsAsArray w a_stackID (some ref)
              ([false, false, false, false] ++ tail) a_matchAll
            = ([], w)) := by
  refine ⟨?_, ?_, ?_, ?_⟩
  · intro pre b b2 item hlen
    exact itemStep_last_flag pre b b2 a_matchAll item hlen
  · intro pre hlen hpre
    have hfilter : shouldFilterLoop (pre ++ [true]) = true :=
      shouldFilterLoop_eq_true _ ⟨true, by simp, rfl⟩
    simp only [GetInventoryItemsAsArray, hfilter, if_true]
    rw [filterLoop_nothing_marked _ _ _
      (fun item => itemStep_only_last_flag pre a_matchAll item hlen hpre)]
  · intro f0 f1 f2 f3 tail tail2 item htail htail2
    exact itemStep_beyond_four f0 f1 f2 f3 tail tail2 a_matchAll item htail htail2
  · intro tail htail
    have hfilter : shouldFilterLoop ([false, false, false, false] ++ tail) = true := by
      obtain ⟨f, hf, hft⟩ := htail
      exact shouldFilterLoop_eq_true _ ⟨f, by simp [hf], hft⟩
    simp only [GetInventoryItemsAsArray, hfilter, if_true]
    rw [filterLoop_nothing_marked]
    intro item
    cases tail with
    | nil =>
      obtain ⟨f, hf, _⟩ := htail
      exact absurd hf (List.not_mem_nil _)
    | cons t ts => simp [itemStep, criterionBlock]

/-- C18 witness: on the inventory of reference 1, whose form 100 is equipped and whose form 101
has count 2, the lists `[true]` and `[false, false, true]` yield the empty result, and so does
`[false, false, false, false, true]`. -/
theorem C18_flag_position_guard_witness :
    GetInventoryItemsAsArray inventoryWorld 0 (some 1) ([] ++ [true]) false
        = ([], inventoryWorld)
      ∧ GetInventoryItemsAsArray inventoryWorld 0 (some 1) ([false, false] ++ [true]) true
        = ([], inventoryWorld)
      ∧ GetInventoryItemsAsArray inventoryWorld 0 (some 1)
          ([false, false, false, false] ++ [true]) false
        = ([], inventoryWorld) :=
  ⟨(C18_flag_position_guard inventoryWorld 0 1 false).2.1 [] (by decide) (by decide),
    (C18_flag_position_guard inventoryWorld 0 1 true).2.1 [false, false] (by decide)
      (by decide),
    (C18_flag_position_guard inventoryWorld 0 1 false).2.2.2 [true] ⟨true, by decide, rfl⟩⟩

theorem range_four : List.range 4 = [0, 1, 2, 3] := by decide

theorem long_list_guards (f0 f1 f2 f3 t : Bool) (ts : List Bool) :
    (decide ((f0 :: f1 :: f2 :: f3 :: t :: ts).length > 1)
        && (f0 :: f1 :: f2 :: f3 :: t :: ts).getD 0 false) = f0
      ∧ (decide ((f0 :: f1 :: f2 :: f3 :: t :: ts).length > 2)
        && (f0 :: f1 :: f2 :: f3 :: t :: ts).getD 1 false) = f1
      ∧ (decide ((f0 :: f1 :: f2 :: f3 :: t :: ts).length > 3)
        && (f0 :: f1 :: f2 :: f3 :: t :: ts).getD 2 false) = f2
      ∧ (decide ((f0 :: f1 :: f2 :: f3 :: t :: ts).length > 4)
        && (f0 :: f1 :: f2 :: f3 :: t :: ts).getD 3 false) = f3 := by
  simp

theorem long_list_active (f0 f1 f2 f3 t : Bool) (ts : List Bool) :
    criterionActive (f0 :: f1 :: f2 :: f3 :: t :: ts) 0 = f0
      ∧ criterionActive (f0 :: f1 :: f2 :: f3 :: t :: ts) 1 = f1
      ∧ criterionActive (f0 :: f1 :: f2 :: f3 :: t :: ts) 2 = f2
      ∧ criterionActive (f0 :: f1 :: f2 :: f3 :: t :: ts) 3 = f3 := by
  simp [criterionActive]

theorem itemStep_long_some (f0 f1 f2 f3 t : Bool) (ts : List Bool) (item : BGSInventoryItem) :
    itemStep (f0 :: f1 :: f2 :: f3 :: t :: ts) false item
      = satisfiesSomeActive (f0 :: f1 :: f2 :: f3 :: t :: ts) item := by
  obtain ⟨g0, g1, g2, g3⟩ := long_list_guards f0 f1 f2 f3 t ts
  obtain ⟨a0, a1, a2, a3⟩ := long_list_active f0 f1 f2 f3 t ts
  simp only [satisfiesSomeActive, range_four, List.any_cons, List.any_nil, itemStep,
    g0, g1, g2, g3, a0, a1, a2, a3, criterionHolds]
  generalize item.stackData.IsEquipped = equipped
  generalize item.stackData.IsFavorite = favorite
  generalize (item.stackData.GetLegendaryMod != none) = legendary
  generalize decide (item.stackData.GetCount > 1) = multiple
  cases f0 <;> cases f1 <;> cases f2 <;> cases f3 <;> cases equipped <;>
    cases favorite <;> cases legendary <;> cases multiple <;> rfl

theorem itemStep_long_every (f0 f1 f2 f3 t : Bool) (ts : List Bool) (item : BGSInventoryItem)
    (hsome : (f0 || f1 || f2 || f3) = true) :
    itemStep (f0 :: f1 :: f2 :: f3 :: t :: ts) true item
      = satisfiesEveryActive (f0 :: f1 :: f2 :: f3 :: t :: ts) item := by
  obtain ⟨g0, g1, g2, g3⟩ := long_list_guards f0 f1 f2 f3 t ts
  obtain ⟨a0, a1, a2, a3⟩ := long_list_active f0 f1 f2 f3 t ts
  simp only [satisfiesEveryActive, range_four, List.all_cons, List.all_nil, itemStep,
    g0, g1, g2, g3, a0, a1, a2, a3, criterionHolds]
  generalize item.stackData.IsEquipped = equipped
  generalize item.stackData.IsFavorite = favorite
  generalize (item.stackData.GetLegendaryMod != none) = legendary
  generalize decide (item.stackData.GetCount > 1) = multiple
  cases f0 <;> cases f1 <;> cases f2 <;> cases f3 <;> cases equipped <;>
    cases favorite <;> cases legendary <;> cases multiple <;>
    first | rfl | exact absurd hsome (by decide)

theorem filtered_sublist (fl : List Bool) (m : Bool) (inv : List BGSInventoryItem) :
    List.Sublist (filterLoop fl m inv []) (inv.map (fun item => item.object)) := by
  rw [filterLoop_eq]
  simpa using (List.filter_sublist inv).map (fun item => item.object)

/-- C19: for every inventory and every filter list of length at least 5 with a true flag among
its first four, GetInventoryItemsAsArray returns, in inventory order, the forms of exactly the
stacks that satisfy at least one active criterion when match-all is false, and of exactly the
stacks that satisfy every active criterion when match-all is true (active: flag true at index
0..3, for equipped, favorite, legendary, count > 1); and for every filter list the result is an
order-preserving sublist of the unfiltered result. -/
theorem C19_long_flag_lists (w : World) (a_stackID : VMStackID) (ref : TESObjectREFR)
    (a_filterList : List Bool) :
    (5 ≤ a_filterList.length → (∃ i, i < 4 ∧ a_filterList.getD i false = true) →
        GetInventoryItemsAsArray w a_stackID (some ref) a_filterList false
            = (((w.engine.inventory ref).filter (satisfiesSomeActive a_filterList)).map
                (fun item => item.object), w)
          ∧ GetInventoryItemsAsArray w a_stackID (some ref) a_filterList true
            = (((w.engine.inventory ref).filter (satisfiesEveryActive a_filterList)).map
                (fun item => item.object), w))
      ∧ ∀ a_matchAll : Bool,
          List.Sublist
            (GetInventoryItemsAsArray w a_stackID (some ref) a_filterList a_matchAll).1
            (GetInventoryItemsAsArray w a_stackID (some ref) [] a_matchAll).1 := by
  constructor
  · intro hlen hsome
    rcases a_filterList with _ | ⟨f0, _ | ⟨f1, _ | ⟨f2, _ | ⟨f3, _ | ⟨t, ts⟩⟩⟩⟩⟩
    · simp at hlen
    · simp at hlen
    · simp at hlen
    · simp at hlen
    · simp at hlen
    · have hflags : (f0 || f1 || f2 || f3) = true := by
        obtain ⟨i, hi, hget⟩ := hsome
        have hcases : i = 0 ∨ i = 1 ∨ i = 2 ∨ i = 3 := by omega
        rcases hcases with h | h | h | h <;> subst h <;> simp at hget <;> simp [hget]
      have hfilter : shouldFilterLoop (f0 :: f1 :: f2 :: f3 :: t :: ts) = true := by
        apply shouldFilterLoop_eq_true
        cases f0
        · cases f1
          · cases f2
            · cases f3
              · simp at hflags
              · exact ⟨true, by simp, rfl⟩
            · exact ⟨true, by simp, rfl⟩
          · exact ⟨true, by simp, rfl⟩
        · exact ⟨true, by simp, rfl⟩
      have hsomeFun : (fun item => itemStep (f0 :: f1 :: f2 :: f3 :: t :: ts) false item)
          = satisfiesSomeActive (f0 :: f1 :: f2 :: f3 :: t :: ts) :=
        funext (fun item => itemStep_long_some f0 f1 f2 f3 t ts item)
      have heveryFun : (fun item => itemStep (f0 :: f1 :: f2 :: f3 :: t :: ts) true item)
          = satisfiesEveryActive (f0 :: f1 :: f2 :: f3 :: t :: ts) :=
        funext (fun item => itemStep_long_every f0 f1 f2 f3 t ts item hflags)
      constructor
      · simp only [GetInventoryItemsAsArray, hfilter, if_true]
        rw [filterLoop_eq, hsomeFun]
        simp
      · simp only [GetInventoryItemsAsArray, hfilter, if_true]
        rw [filterLoop_eq, heveryFun]
        simp
  · intro a_matchAll
    have hall : (GetInventoryItemsAsArray w a_stackID (some ref) [] a_matchAll).1
        = (w.engine.inventory ref).map (fun item => item.object) := by
      simp [GetInventoryItemsAsArray, shouldFilterLoop, allItemsLoop_eq]
    rw [hall]
    by_cases hfilter : shouldFilterLoop a_filterList = true
    · simp only [GetInventoryItemsAsArray, hfilter, if_true]
      exact filtered_sublist a_filterList a_matchAll _
    · simp only [GetInventoryItemsAsArray, hfilter, if_false]
      rw [allItemsLoop_eq]
      simp

/-- C19 witness: on the inventory of reference 1 (form 100 equipped, form 101 a favorite with
count 2, form 102 legendary, form 103 plain), the flags equipped and count > 1 in a list of
five select forms 100 and 101 without match-all, and no form with match-all. -/
theorem C19_long_flag_lists_witness :
    5 ≤ [true, false, false, true, false].length
      ∧ (∃ i, i < 4 ∧ [true, false, false, true, false].getD i false = true)
      ∧ (GetInventoryItemsAsArray inventoryWorld 0 (some 1)
          [true, false, false, true, false] false).1 = [100, 101]
      ∧ (GetInventoryItemsAsArray inventoryWorld 0 (some 1)
          [true, false, false, true, false] true).1 = [] :=
  ⟨by decide, ⟨0, by decide, by decide⟩,
    (congrArg Prod.fst ((C19_long_flag_lists inventoryWorld 0 1
      [true, false, false, true, false]).1 (by decide) ⟨0, by decide, by decide⟩).1).trans
      (by decide),
    (congrArg Prod.fst ((C19_long_flag_lists inventoryWorld 0 1
      [true, false, false, true, false]).1 (by decide) ⟨0, by decide, by decide⟩).2).trans
      (by decide)⟩

end Papyrus.ObjectReference
